import Mathlib

/-
  Verification development for the TuCanChat WhatsApp translator bot
  (src/server.js).  The definitions below are a shallow embedding of the
  bot's per-contact conversation engine: the session state machine in
  `handleIncoming`, the auto-flip language resolver, the speech pipeline
  (download / transcode / transcribe / detect with temp-file cleanup), the
  reply flow with its locally-recovered synthesis failure, and the webhook
  wrapper that runs `handleIncoming` detached with a logging `.catch`.

  External services (Supabase, OpenAI, Google, Twilio, Stripe) are modelled
  by an `Env` record that fixes, for one inbound message, the outcome of
  every external call: a `...Fails` flag set means that call throws, and the
  `...Res` fields give the values returned on success.  JavaScript string
  operations (`trim`, `toLowerCase`, `slice(0,2)`, regex tests used by the
  code) are modelled for ASCII input by executable functions on `.data`.
-/

namespace TuCan

/-- JS `String.prototype.trim` / `toLowerCase` whitespace predicate (ASCII). -/
def isWS (c : Char) : Bool :=
  c == ' ' || c == '\t' || c == '\n' || c == '\r'

/-- ASCII lower-casing of one character, modelling JS `toLowerCase` on the
ASCII inputs the bot compares against. -/
def asciiLower (c : Char) : Char :=
  if c.toNat ≥ 65 ∧ c.toNat ≤ 90 then Char.ofNat (c.toNat + 32) else c

/-- JS `txt.toLowerCase()` (ASCII model). -/
def lowerS (s : String) : String :=
  ⟨s.data.map asciiLower⟩

/-- JS `txt.trim()` (ASCII model). -/
def trimS (s : String) : String :=
  ⟨((s.data.dropWhile isWS).reverse.dropWhile isWS).reverse⟩

/-- JS `s.slice(0, 2)`. -/
def take2 (s : String) : String :=
  ⟨s.data.take 2⟩

/-- Decides whether `pat` is a prefix of `l` (helper for substring tests). -/
def prefixOfL : List Char → List Char → Bool
  | [], _ => true
  | _ :: _, [] => false
  | a :: as, b :: bs => a == b && prefixOfL as bs

/-- Decides whether `pat` occurs as a contiguous substring of `l`;
models a JS regex test such as `/male/i.test(lower)` on a lower-cased
string. -/
def hasSubL (pat : List Char) : List Char → Bool
  | [] => pat.isEmpty
  | c :: rest => prefixOfL pat (c :: rest) || hasSubL pat rest

/-- `hasSub s pat` : `pat` occurs inside `s`. -/
def hasSub (s pat : String) : Bool :=
  hasSubL pat.data s.data

/-- One entry of the language `MENU` object of server.js. -/
structure LangEntry where
  name : String
  code : String
deriving DecidableEq, Repr

/-- The `MENU` constant of server.js: digit key ↦ `{name, code}`. -/
def MENU : List (Char × LangEntry) :=
  [('1', ⟨"English", "en"⟩),
   ('2', ⟨"Spanish", "es"⟩),
   ('3', ⟨"French", "fr"⟩),
   ('4', ⟨"Portuguese", "pt"⟩),
   ('5', ⟨"German", "de"⟩)]

/-- `MENU[d[0]]` lookup for a digit character. -/
def menuDigit (c : Char) : Option LangEntry :=
  (MENU.find? fun p => p.1 == c).map Prod.snd

/-- `pickLang` of server.js:
`const m = txt.trim(), d = m.match(/^\d/); if (d && MENU[d[0]]) return MENU[d[0]];
const lc = m.toLowerCase();
return Object.values(MENU).find(o => o.code === lc || o.name.toLowerCase() === lc);` -/
def pickLang (txt : String) : Option LangEntry :=
  let m := trimS txt
  let viaDigit : Option LangEntry :=
    match m.data.head? with
    | some c => if c.isDigit then menuDigit c else none
    | none => none
  match viaDigit with
  | some e => some e
  | none =>
    let lc := lowerS m
    (MENU.map Prod.snd).find? fun o => o.code == lc || lowerS o.name == lc

/-- The values the code ever writes into the `language_step` column of the
`users` table: `"target"`, `"source"`, `"gender"`, `"tutorial1"`,
`"tutorial2"`, `"tutorial3"`, `"ready"`. -/
inductive Step
  | target
  | source
  | gender
  | tutorial1
  | tutorial2
  | tutorial3
  | ready
deriving DecidableEq, Repr

/-- A row of the `users` table as read and written by `handleIncoming`.
Nullable text columns are `Option String` (the code only ever stores
non-empty strings, so JS truthiness coincides with `isSome`). -/
structure User where
  language_step : Step
  source_lang : Option String
  target_lang : Option String
  voice_gender : Option String
  plan : String
  free_used : Nat
deriving DecidableEq, Repr

/-- One outbound Twilio message: `sendMessage(to, body)` sends `msg body`,
`sendMessage(to, "", url)` sends `media url`. -/
inductive Reply
  | msg (body : String)
  | media (url : String)
deriving DecidableEq, Repr

/-- The arguments of `handleIncoming(from, text, num, mediaUrl)` apart from
the sender id: `text = (Body||"").trim()`, `numMedia = parseInt(NumMedia)`,
`mediaUrl = MediaUrl0`. -/
structure Msg where
  text : String
  numMedia : Nat
  mediaUrl : Option String
deriving DecidableEq, Repr

/-- Outcomes of the external calls made while processing one inbound
message.  A `...Fails` flag set means the corresponding `await` rejects
(throws); the remaining fields are the values returned on success.
`whisperFails` means both transcription attempts (whisper-large-v3 and the
whisper-1 fallback) fail; `ttsFails` means the whole synthesis fallback
chain of `tts` is exhausted and it throws `Error("TTS failed")`.
Supabase queries resolve with an `error` field instead of throwing, and the
code never checks it, so database operations are modelled as succeeding. -/
structure Env where
  translateFails : Bool
  translateRes : String → String → String
  detectFails : Bool
  detectRes : String → String
  fetchFails : Bool
  transcodeFails : Bool
  whisperFails : Bool
  whisperText : String
  whisperLangRaw : String
  ttsFails : Bool
  uploadFails : Bool
  audioUrl : String
  stripeFails : Bool
  checkoutLink : String

/-- Observable outcome of one run of `handleIncoming`:
the final `users` row, the Twilio messages actually sent (in order, up to
the point where an exception aborted the run), whether the run ended with
an uncaught exception, and the temp files under `/tmp` left undeleted. -/
structure RunResult where
  user : Option User
  sent : List Reply
  errored : Bool
  tmpLeft : List String
deriving DecidableEq, Repr

/-- Result of the transcribe / detect block (server.js lines 666-695). -/
structure SpeechOut where
  original : String
  detected : String
  errored : Bool
  tmpLeft : List String
deriving DecidableEq, Repr

/-- `WELCOME_MSG` of server.js. -/
def WELCOME_MSG : String :=
  "Welcome to TuCanChat🦜\n1️⃣ I speak English 🇺🇸 – type 1\n2️⃣ Hablo Español 🇪🇸 – escribe 2\n3️⃣ Je parle français 🇫🇷 – tapez 3\n4️⃣ Eu falo português 🇵🇹 – digite 4\n5️⃣ Ich spreche Deutsch 🇩🇪 – tippe 5"

/-- `RESET_HELP` of server.js. -/
def RESET_HELP : String :=
  "✳️  Type *reset* anytime to restart everything.\n✳️  Type *reset source* to change only the language you receive messages in."

/-- The numbered-menu block produced by `DIGITS.map(...)` in `menuMsg`. -/
def menuLines : String :=
  "1️⃣ English (en)\n2️⃣ Spanish (es)\n3️⃣ French (fr)\n4️⃣ Portuguese (pt)\n5️⃣ German (de)"

/-- `menuMsg` of server.js. -/
def menuMsg (t : String) : String :=
  t ++ "\n\n" ++ menuLines

/-- Heading translated in the reset-source and target steps. -/
def chooseHeading : String :=
  "Choose the language you receive messages in (the one you need translated):"

/-- Menu literal of the reset-source branch (server.js lines 458-462). -/
def resetSourceMenu : String :=
  "1️⃣ English 🇺🇸 – type 1\n2️⃣ Español 🇪🇸 – escribe 2\n3️⃣ Français 🇫🇷 – tapez 3\n4️⃣ Português 🇵🇹 – digite 4\n5️⃣ Deutsch  🇩🇪 – tippe 5"

/-- Menu literal of the target-language step (server.js lines 529-533). -/
def targetStepMenu : String :=
  "1️⃣ English 🇺🇸 – type 1\n2️⃣ Spanish 🇪🇸 – type 2\n3️⃣ French  🇫🇷 – type 3\n4️⃣ Portuguese 🇵🇹 – type 4\n5️⃣ German  🇩🇪 – type 5"

/-- Re-prompt of the target step on a menu mismatch. -/
def reply15 : String :=
  "❌ Reply 1-5.\n1) English\n2) Spanish\n3) French\n4) Portuguese\n5) German"

/-- Voice-gender prompt (translated before sending). -/
def genderPrompt : String :=
  "Choose the voice you want me to use when creating audio messages for you\n1️⃣ Male\n2️⃣ Female"

/-- Set-up complete intro (translated before sending). -/
def introMsg : String :=
  "Set-up complete! I am TucanChat, your WhatsApp translation assistant. I am here to help with translating text, voice, and video messages."

/-- First tutorial action prompt (translated before sending). -/
def firstAction : String :=
  "Let’s try it out! Forward me an audio message from another chat you want translated into your language."

/-- Gender-step re-prompt (translated before sending). -/
def genderRetry : String :=
  "❌ Reply 1 or 2.\n1️⃣ Male\n2️⃣ Female"

/-- `map.tutorial1.msg` (note the leading space, as in the source). -/
def tut1Msg : String :=
  " Now record an audio note in your language—what you want to say. I’ll translate it into your friend’s language so you can forward it"

/-- `map.tutorial2.msg`. -/
def tut2Msg : String :=
  "Forward that voice message ☝️ to your friend. Then send me a text in your language, or forward me a text in theirs. I\u0027ll translate it for them—and any reply they send back—for you."

/-- `map.tutorial3.msg`. -/
def tut3Msg : String :=
  "Great! Now you know how to use TucanChat. You can also send me videos and I can translate the audio for you. You have 10 messages for free, and then it is only $1.99/month"

/-- Reply when setup is not finished. -/
def setupIncomplete : String :=
  "⚠️ Setup incomplete. Text *reset* to start over."

/-- Reply when the message carries neither text nor usable media. -/
def sendTextOrVoice : String :=
  "⚠️ Send text or a voice note."

/-- Ready prompt of the reset-source completion path. -/
def readySrc : String :=
  "I am ready to translate."

/-- Confirmation of the reset-source completion path. -/
def changeDone (langName : String) : String :=
  "Language change complete. You are now translating messages you receive in " ++ langName ++ "."

/-- `paywallMsg.en`. -/
def paywallEn : String :=
  "⚠️ You’ve used your 10 free translations. For unlimited access, please choose\none of the subscription options below:\n\n1️⃣ Monthly  $1.99\n2️⃣ Annual   $19.99"

/-- `paywallMsg.es`. -/
def paywallEs : String :=
  "⚠️ Has usado tus 10 traducciones gratuitas. Para acceso ilimitado, elige\nuna de las siguientes opciones de suscripción:\n\n1️⃣ Mensual    $1.99\n2️⃣ Anual     $19.99"

/-- `paywallMsg.fr`. -/
def paywallFr : String :=
  "⚠️ Vous avez utilisé vos 10 traductions gratuites. Pour un accès illimité, choisissez\nl’une des options d’abonnement ci-dessous :\n\n1️⃣ Mensuel   $1.99\n2️⃣ Annuel    $19.99"

/-- `paywallMsg.pt`. -/
def paywallPt : String :=
  "⚠️ Você usou suas 10 traduções gratuitas. Para acesso ilimitado, escolha\numa das opções de assinatura abaixo:\n\n1️⃣ Mensal    US$1.99\n2️⃣ Anual     US$19.99"

/-- `paywallMsg.de`. -/
def paywallDe : String :=
  "⚠️ Du hast deine 10 kostenlosen Übersetzungen aufgebraucht. Für unbegrenzten Zugriff wähle\neine der folgenden Abo-Optionen:\n\n1️⃣ Monatlich   $1.99\n2️⃣ Jährlich    $19.99"

/-- The `paywallMsg` lookup object. -/
def paywallMsg (code : String) : Option String :=
  if code = "en" then some paywallEn
  else if code = "es" then some paywallEs
  else if code = "fr" then some paywallFr
  else if code = "pt" then some paywallPt
  else if code = "de" then some paywallDe
  else none

/-- `const isFree = !user.plan || user.plan === "FREE";` (a row created by
this code always has a non-empty plan, so JS falsiness is `= ""`). -/
def isFreeB (u : User) : Bool :=
  u.plan == "" || u.plan == "FREE"

/-- The row upserted for a brand-new contact (server.js lines 427-438):
`{ phone_number, language_step: "target", plan: "FREE", free_used: 0 }`. -/
def initialUser : User :=
  { language_step := .target
    source_lang := none
    target_lang := none
    voice_gender := none
    plan := "FREE"
    free_used := 0 }

/-- The update of the full-reset branch (server.js lines 488-495). -/
def fullResetUser (u : User) : User :=
  { u with language_step := .target
           source_lang := none
           target_lang := none
           voice_gender := none
           free_used := 0 }

/-- The update of the `reset source` branch (server.js lines 447-452):
clears `source_lang`, sets `language_step` to `"source"`, keeps
`target_lang`, `voice_gender` and `free_used`. -/
def resetSourceUser (u : User) : User :=
  { u with source_lang := none
           language_step := .source }

/-- `const dest = detected === user.target_lang ? user.source_lang
: user.target_lang;` (server.js line 697; the same ternary is the
`auto-flip` line of the variant bot). -/
def resolveDest (detected src tgt : String) : String :=
  if detected = tgt then src else tgt

/-- The transcribe / detect block (server.js lines 666-695).
For media messages: download (`fetch`), write the raw temp file, transcode
with ffmpeg (`toWav`), then inside `try { whisper; detect } finally
{ unlink raw; unlink wav }`.  `tmpLeft` records the temp files that remain
after the block: the `finally` removes both, but a `toWav` failure happens
before the `try`, so the raw download stays behind in that case.
For text messages: language detection only, no temp files. -/
def speechOrText (env : Env) (msg : Msg) : SpeechOut :=
  if 0 < msg.numMedia ∧ msg.mediaUrl.isSome = true then
    if env.fetchFails = true then ⟨"", "", true, []⟩
    else if env.transcodeFails = true then ⟨"", "", true, ["raw"]⟩
    else if env.whisperFails = true then ⟨"", "", true, []⟩
    else
      let wl := take2 env.whisperLangRaw
      if wl ≠ "" then ⟨env.whisperText, wl, false, []⟩
      else if env.detectFails = true then ⟨"", "", true, []⟩
      else ⟨env.whisperText, take2 (env.detectRes env.whisperText), false, []⟩
  else if msg.text ≠ "" then
    if env.detectFails = true then ⟨"", "", true, []⟩
    else ⟨msg.text, take2 (env.detectRes msg.text), false, []⟩
  else ⟨"", "", false, []⟩

/-- The reply flow (server.js lines 716-729).  A text-only incoming message
(`num === 0`) gets the translation alone.  A media message gets the
transcript line and the translation, then `try { tts; upload; send media }
catch (e) { console.error(...) }` — synthesis and upload failures are
swallowed after the two text messages are already out. -/
def replyFlow (env : Env) (msg : Msg) (original translated : String) :
    List Reply :=
  if msg.numMedia = 0 then [Reply.msg translated]
  else
    [Reply.msg ("🗣 " ++ original), Reply.msg translated] ++
      (if env.ttsFails = true then []
       else if env.uploadFails = true then []
       else [Reply.media env.audioUrl])

/-- The `map` of tutorial follow-ups (server.js lines 641-655): for a
tutorial step, the deferred prompt and the next step. -/
def tutorialNext : Step → Option (String × Step)
  | .tutorial1 => some (tut1Msg, .tutorial2)
  | .tutorial2 => some (tut2Msg, .tutorial3)
  | .tutorial3 => some (tut3Msg, .ready)
  | _ => none

/-- The translation phase (server.js lines 666-740): transcribe/detect,
resolve the destination, translate, bump `free_used` for free READY users,
run the reply flow, then send the deferred tutorial follow-up and advance
`language_step`.  (The `logRow` insert is a supabase call that never
throws and touches only the append-only `translations` table.) -/
def translatePhase (env : Env) (u : User) (msg : Msg) : RunResult :=
  let tf := tutorialNext u.language_step
  let so := speechOrText env msg
  if so.errored = true then ⟨some u, [], true, so.tmpLeft⟩
  else if so.original = "" then
    ⟨some u, [Reply.msg sendTextOrVoice], false, so.tmpLeft⟩
  else
    let dest := resolveDest so.detected (u.source_lang.getD "")
      (u.target_lang.getD "")
    if env.translateFails = true then ⟨some u, [], true, so.tmpLeft⟩
    else
      let translated := env.translateRes so.original dest
      let u1 :=
        if isFreeB u = true ∧ u.language_step = .ready then
          { u with free_used := u.free_used + 1 }
        else u
      let sent := replyFlow env msg so.original translated
      match tf with
      | none => ⟨some u1, sent, false, so.tmpLeft⟩
      | some t =>
        ⟨some { u1 with language_step := t.2 },
         sent ++ [Reply.msg (env.translateRes t.1 (u.target_lang.getD ""))],
         false, so.tmpLeft⟩

/-- Step 4a: pick TARGET language (server.js lines 517-544).  A menu match
stores `target_lang`, moves the step to `"source"` and sends the translated
source-language menu; a mismatch re-prompts without a state change. -/
def targetStep (env : Env) (u : User) (msg : Msg) : RunResult :=
  match pickLang msg.text with
  | some choice =>
    let u1 := { u with target_lang := some choice.code,
                       language_step := .source }
    if env.translateFails = true then ⟨some u1, [], true, []⟩
    else
      ⟨some u1,
       [Reply.msg (env.translateRes chooseHeading choice.code ++ "\n" ++
          env.translateRes targetStepMenu choice.code)], false, []⟩
  | none => ⟨some u, [Reply.msg reply15], false, []⟩

/-- The users-row update of the source step: store the chosen code and move
to `"ready"` when setup was already finished (`alreadySetup`), else to the
gender step. -/
def sourceStepUser (u : User) (code : String) : User :=
  { u with
    source_lang := some code
    language_step :=
      if (u.voice_gender.isSome && u.target_lang.isSome) = true
      then Step.ready else Step.gender }

/-- Step 4b: pick SOURCE language (server.js lines 547-597).  Rejects a
choice equal to `target_lang`; otherwise stores `source_lang` and moves to
`"ready"` when the user already finished setup (`voice_gender` and
`target_lang` both set — the reset-source path) or to `"gender"` during
normal onboarding. -/
def sourceStep (env : Env) (u : User) (msg : Msg) : RunResult :=
  match pickLang msg.text with
  | none => ⟨some u, [Reply.msg (menuMsg "❌ Reply 1-5.\nLanguages:")], false, []⟩
  | some choice =>
    if u.target_lang = some choice.code then
      ⟨some u, [Reply.msg (menuMsg "⚠️ Source must differ.\nLanguages:")],
       false, []⟩
    else
      let alreadySetup := u.voice_gender.isSome && u.target_lang.isSome
      let u1 := sourceStepUser u choice.code
      if env.translateFails = true then ⟨some u1, [], true, []⟩
      else if alreadySetup = true then
        ⟨some u1,
         [Reply.msg (env.translateRes (changeDone choice.name)
            (u.target_lang.getD "")),
          Reply.msg (env.translateRes RESET_HELP (u.target_lang.getD "")),
          Reply.msg (env.translateRes readySrc (u.target_lang.getD ""))],
         false, []⟩
      else
        ⟨some u1,
         [Reply.msg (env.translateRes genderPrompt (u.target_lang.getD ""))],
         false, []⟩

/-- Step 4c: pick voice gender (server.js lines 600-637).
`if (/^1$/.test(lower) || /male/i.test(lower)) g = "MALE";
 if (/^2$/.test(lower) || /female/i.test(lower)) g = "FEMALE";`
(the second test overrides the first, so "female" picks FEMALE). -/
def genderStep (env : Env) (u : User) (lower : String) : RunResult :=
  let g0 : Option String :=
    if lower = "1" ∨ hasSub lower "male" = true then some "MALE" else none
  let g : Option String :=
    if lower = "2" ∨ hasSub lower "female" = true then some "FEMALE" else g0
  match g with
  | some gv =>
    let u1 := { u with voice_gender := some gv, language_step := .tutorial1 }
    if env.translateFails = true then ⟨some u1, [], true, []⟩
    else
      ⟨some u1,
       [Reply.msg (env.translateRes introMsg (u.target_lang.getD "")),
        Reply.msg (env.translateRes RESET_HELP (u.target_lang.getD "")),
        Reply.msg (env.translateRes firstAction (u.target_lang.getD ""))],
       false, []⟩
  | none =>
    if env.translateFails = true then ⟨some u, [], true, []⟩
    else
      ⟨some u,
       [Reply.msg (env.translateRes genderRetry (u.target_lang.getD ""))],
       false, []⟩

/-- The per-step dispatch after the keyword and gating checks: the
onboarding steps return on their own; tutorial and ready steps fall through
the `Setup incomplete` guard (server.js lines 660-663) into the
translation phase. -/
def stepDispatch (env : Env) (u : User) (msg : Msg) : RunResult :=
  match u.language_step with
  | .target => targetStep env u msg
  | .source => sourceStep env u msg
  | .gender => genderStep env u (lowerS (trimS msg.text))
  | _ =>
    if u.source_lang.isNone ∨ u.target_lang.isNone ∨ u.voice_gender.isNone
    then ⟨some u, [Reply.msg setupIncomplete], false, []⟩
    else translatePhase env u msg

/-- `handleIncoming` for an existing `users` row, in the code's order:
1. quick reset of the source language (`/^reset source$/i`),
2. pay-wall button replies (`/^[1-3]$/` while free, exhausted and READY),
3. full reset (`/^(reset|change language)$/i`),
4. free-tier gate, then the onboarding wizard / translation phase. -/
def handleExisting (env : Env) (u : User) (msg : Msg) : RunResult :=
  let lower := lowerS (trimS msg.text)
  if lower = "reset source" then
    let u1 := resetSourceUser u
    if env.translateFails = true then ⟨some u1, [], true, []⟩
    else
      ⟨some u1,
       [Reply.msg (env.translateRes chooseHeading (u.target_lang.getD "en") ++
          "\n" ++ env.translateRes resetSourceMenu (u.target_lang.getD "en"))],
       false, []⟩
  else if (lower = "1" ∨ lower = "2" ∨ lower = "3") ∧ isFreeB u = true ∧
      10 ≤ u.free_used ∧ u.language_step = .ready then
    if env.stripeFails = true then
      ⟨some u, [Reply.msg "⚠️ Payment link error. Try again later."], false, []⟩
    else
      ⟨some u, [Reply.msg ("Tap to pay → " ++ env.checkoutLink)], false, []⟩
  else if lower = "reset" ∨ lower = "change language" then
    ⟨some (fullResetUser u), [Reply.msg WELCOME_MSG], false, []⟩
  else if isFreeB u = true ∧ 10 ≤ u.free_used ∧ u.language_step = .ready then
    ⟨some u,
     [Reply.msg ((paywallMsg (lowerS (u.target_lang.getD "en"))).getD
        paywallEn)], false, []⟩
  else stepDispatch env u msg

/-- `handleIncoming` (server.js lines 416-742).  A brand-new contact gets
the default row upserted and the welcome menu, and nothing else happens;
an existing contact goes through `handleExisting`. -/
def handleIncoming (env : Env) (user0 : Option User) (msg : Msg) :
    RunResult :=
  match user0 with
  | none => ⟨some initialUser, [Reply.msg WELCOME_MSG], false, []⟩
  | some u => handleExisting env u msg

/-- The detached background task started by `app.post("/webhook")`
(server.js lines 747-763): the route acks with empty TwiML immediately and
runs `handleIncoming(...).catch(e => console.error("handleIncoming ERR", e))`.
The `.catch` swallows the rejection — `errored = true` in the result means
the error was logged; the catch handler sends nothing to the contact. -/
def webhookTask (env : Env) (user0 : Option User) (msg : Msg) : RunResult :=
  handleIncoming env user0 msg

/-- Sessions reachable by the state machine: the row created for a new
contact, closed under processing one inbound message with any outcome of
the external calls. -/
inductive Reachable : User → Prop
  | init : Reachable initialUser
  | step (env : Env) (msg : Msg) (u u' : User) :
      Reachable u → (handleIncoming env (some u) msg).user = some u' →
      Reachable u'

/-- The inductive invariant of the session state machine:
while the step is `"target"` no source language is stored; whenever both
languages are stored they differ; and at `"ready"` both are stored. -/
def Inv (u : User) : Prop :=
  (u.language_step = .target → u.source_lang = none) ∧
  (∀ s t, u.source_lang = some s → u.target_lang = some t → s ≠ t) ∧
  (u.language_step = .ready →
    u.source_lang.isSome = true ∧ u.target_lang.isSome = true)

/-- An environment where every external call succeeds: translation is
modelled by the identity on the text, detection returns "es". -/
def okEnv : Env :=
  { translateFails := false
    translateRes := fun t _ => t
    detectFails := false
    detectRes := fun _ => "es"
    fetchFails := false
    transcodeFails := false
    whisperFails := false
    whisperText := "hola"
    whisperLangRaw := "es"
    ttsFails := false
    uploadFails := false
    audioUrl := "https://storage/tts.mp3"
    stripeFails := false
    checkoutLink := "https://pay" }

/-- A READY session with source "es", target "en", a chosen voice, and the
given plan and usage count — used as a concrete session in several tests. -/
def readyUser (plan : String) (fu : Nat) : User :=
  { language_step := .ready
    source_lang := some "es"
    target_lang := some "en"
    voice_gender := some "MALE"
    plan := plan
    free_used := fu }

/-- A text-only inbound message. -/
def textMsg (t : String) : Msg :=
  ⟨t, 0, none⟩

/-- An inbound message carrying one audio attachment and no body. -/
def audioMsg : Msg :=
  ⟨"", 1, some "https://api.twilio.example/media/0"⟩

/-- All external calls succeed except language detection. -/
def detectFailEnv : Env :=
  { okEnv with detectFails := true }

/-- All external calls succeed except the ffmpeg transcode (`toWav`). -/
def transcodeFailEnv : Env :=
  { okEnv with transcodeFails := true }

/-- All external calls succeed except the whole synthesis chain of `tts`. -/
def ttsFailEnv : Env :=
  { okEnv with ttsFails := true }

end TuCan

namespace TuCan

/-- Claim C1 as stated is false: for a READY session with
`source_lang = "es"` and `target_lang = "en"`, a message detected as the
third language `"fr"` resolves to `"en"` — the `target_lang`, not the
`source_lang` the claim requires. -/
theorem c1_counterexample :
    resolveDest "fr" "es" "en" = "en" ∧ resolveDest "fr" "es" "en" ≠ "es" := by
  decide

/-- Claim C1 (amended): when the detected language equals neither stored
language, the resolver returns `target_lang`, never `source_lang`. -/
theorem c1_amended (d s t : String) (_hs : d ≠ s) (ht : d ≠ t) :
    resolveDest d s t = t := by
  simp [resolveDest, ht]

/-- Witness for `c1_amended` at the concrete third language "fr". -/
theorem c1_witness : resolveDest "fr" "es" "en" = "en" :=
  c1_amended "fr" "es" "en" (by decide) (by decide)

/-- Claim C6: the resolver is total — for every `detectedLang` (including
the empty string and third languages) and distinct stored languages it
returns exactly one of the two stored languages. -/
theorem c6_resolver_total (d s t : String) (hst : s ≠ t) :
    (resolveDest d s t = s ∧ resolveDest d s t ≠ t) ∨
    (resolveDest d s t = t ∧ resolveDest d s t ≠ s) := by
  by_cases h : d = t
  · left
    constructor
    · simp [resolveDest, h]
    · simp [resolveDest, h]
      exact hst
  · right
    constructor
    · simp [resolveDest, h]
    · simp [resolveDest, h]
      exact Ne.symm hst

/-- Witness for `c6_resolver_total` at the empty detected language. -/
theorem c6_witness :
    (resolveDest "" "es" "en" = "es" ∧ resolveDest "" "es" "en" ≠ "en") ∨
    (resolveDest "" "es" "en" = "en" ∧ resolveDest "" "es" "en" ≠ "es") :=
  c6_resolver_total "" "es" "en" (by decide)

/-- Claim C9: the menu matcher accepts any trimmed input whose first
character is a menu digit, regardless of trailing characters; an input
whose first character is not a digit matches exactly when its entire
lower-cased text equals a menu entry's code or lower-cased name. -/
theorem c9_menu_matcher :
    (∀ txt c e, (trimS txt).data.head? = some c → c.isDigit = true →
      menuDigit c = some e → pickLang txt = some e) ∧
    (∀ txt c, (trimS txt).data.head? = some c → c.isDigit = false →
      ((pickLang txt).isSome = true ↔
        ∃ e, e ∈ MENU.map Prod.snd ∧
          (e.code = lowerS (trimS txt) ∨ lowerS e.name = lowerS (trimS txt)))) := by
  constructor
  · intro txt c e h1 h2 h3
    simp [pickLang, h1, h2, h3]
  · intro txt c h1 h2
    simp [pickLang, h1, h2, List.find?_isSome, Bool.or_eq_true, beq_iff_eq]
    exact ⟨fun ⟨a, b, hm, hp⟩ => ⟨b, ⟨a, hm⟩, hp⟩,
           fun ⟨e, ⟨a, hm⟩, hp⟩ => ⟨a, e, hm, hp⟩⟩

/-- Witness for `c9_menu_matcher`: "1abc" and "12" both select menu
entry 1 (English). -/
theorem c9_witness :
    pickLang "1abc" = some ⟨"English", "en"⟩ ∧
    pickLang "12" = some ⟨"English", "en"⟩ :=
  ⟨c9_menu_matcher.1 "1abc" '1' ⟨"English", "en"⟩ (by decide) (by decide)
     (by decide),
   c9_menu_matcher.1 "12" '1' ⟨"English", "en"⟩ (by decide) (by decide)
     (by decide)⟩

/-- Claim C2 as stated is false: a READY session with `free_used = 5` that
sends "reset" does get its step and language fields reset, but `free_used`
becomes 0 — the usage counter is not left unchanged. -/
theorem c2_counterexample :
    (handleIncoming okEnv (some (readyUser "FREE" 5)) (textMsg "reset")).user =
      some { readyUser "FREE" 5 with
               language_step := .target
               source_lang := none
               target_lang := none
               voice_gender := none
               free_used := 0 } ∧
    (readyUser "FREE" 5).free_used = 5 :=
  ⟨by decide, rfl⟩

/-- Claim C2 (amended): from every prior step, the full-reset keyword
(exact case-insensitive match on "reset" or "change language") sets the
step back to the initial language-selection stage, clears both stored
languages and the voice preference, and resets `free_used` to 0 (a fresh
allowance) rather than leaving it unchanged; the welcome menu is sent. -/
theorem c2_amended (env : Env) (u : User) (msg : Msg)
    (h : lowerS (trimS msg.text) = "reset" ∨
         lowerS (trimS msg.text) = "change language") :
    handleIncoming env (some u) msg =
      ⟨some (fullResetUser u), [Reply.msg WELCOME_MSG], false, []⟩ := by
  rcases h with h | h <;> simp [handleIncoming, handleExisting, h]

/-- Witness for `c2_amended`: " RESET " (case-insensitive, trimmed) resets
a READY session with usage 7. -/
theorem c2_witness :
    handleIncoming okEnv (some (readyUser "FREE" 7)) (textMsg " RESET ") =
      ⟨some (fullResetUser (readyUser "FREE" 7)), [Reply.msg WELCOME_MSG],
       false, []⟩ :=
  c2_amended okEnv (readyUser "FREE" 7) (textMsg " RESET ") (.inl (by decide))

/-- Claim C3 as stated is false: a READY paid session sends a text, the
language-detection call fails, and the contact receives no reply at all —
the detached task ends with the error merely logged, not answered with a
generic failure message. -/
theorem c3_counterexample :
    (webhookTask detectFailEnv (some (readyUser "MONTHLY" 0))
        (textMsg "hola")).sent = [] ∧
    (webhookTask detectFailEnv (some (readyUser "MONTHLY" 0))
        (textMsg "hola")).errored = true :=
  ⟨by decide, by decide⟩

/-- Which external-call failures make the transcribe/detect block of the
speech pipeline abort, and which transcript it yields when it does not. -/
theorem speechOrText_cases (env : Env) (msg : Msg) :
    ((0 < msg.numMedia ∧ msg.mediaUrl.isSome = true) →
      ((env.fetchFails = true ∨ env.transcodeFails = true ∨
        env.whisperFails = true ∨
        (take2 env.whisperLangRaw = "" ∧ env.detectFails = true)) →
        (speechOrText env msg).errored = true) ∧
      ((speechOrText env msg).errored = false →
        (speechOrText env msg).original = env.whisperText)) ∧
    (¬(0 < msg.numMedia ∧ msg.mediaUrl.isSome = true) →
      msg.text ≠ "" →
      (env.detectFails = true → (speechOrText env msg).errored = true) ∧
      ((speechOrText env msg).errored = false →
        (speechOrText env msg).original = msg.text)) := by
  constructor
  · intro hmedia
    constructor
    · intro hf
      rcases hf with hf | hf | hf | ⟨hl, hd⟩ <;>
        cases hff : env.fetchFails <;> cases htc : env.transcodeFails <;>
        cases hwf : env.whisperFails <;>
        simp_all [speechOrText, hmedia]
    · intro he
      cases hff : env.fetchFails <;> cases htc : env.transcodeFails <;>
        cases hwf : env.whisperFails <;> cases hdf : env.detectFails <;>
        by_cases hwl : take2 env.whisperLangRaw = "" <;>
        simp_all [speechOrText, hmedia]
  · intro hmedia htext
    constructor
    · intro hd
      unfold speechOrText
      rw [if_neg hmedia, if_pos htext]
      simp [hd]
    · intro he
      unfold speechOrText at he ⊢
      rw [if_neg hmedia, if_pos htext] at he ⊢
      cases hdf : env.detectFails <;> simp_all

/-- A READY-session run whose pipeline throws before the first send — in
the transcribe/detect block, or in the translation call on a non-empty
transcript: the top-level catch logs it, nothing is sent, and the users
row is unchanged. -/
theorem webhook_abort (env : Env) (u : User) (msg : Msg) (sl tl gl : String)
    (hstep : u.language_step = .ready)
    (hs : u.source_lang = some sl) (ht : u.target_lang = some tl)
    (hg : u.voice_gender = some gl)
    (hgate : ¬(isFreeB u = true ∧ 10 ≤ u.free_used))
    (h1 : lowerS (trimS msg.text) ≠ "reset source")
    (h2 : lowerS (trimS msg.text) ≠ "reset")
    (h3 : lowerS (trimS msg.text) ≠ "change language")
    (hso : (speechOrText env msg).errored = true ∨
      ((speechOrText env msg).errored = false ∧
       (speechOrText env msg).original ≠ "" ∧ env.translateFails = true)) :
    (webhookTask env (some u) msg).user = some u ∧
    (webhookTask env (some u) msg).sent = [] ∧
    (webhookTask env (some u) msg).errored = true := by
  have hpw : ¬((lowerS (trimS msg.text) = "1" ∨ lowerS (trimS msg.text) = "2" ∨
      lowerS (trimS msg.text) = "3") ∧ isFreeB u = true ∧
      10 ≤ u.free_used ∧ u.language_step = .ready) :=
    fun hc => hgate ⟨hc.2.1, hc.2.2.1⟩
  have hfr : ¬(lowerS (trimS msg.text) = "reset" ∨
      lowerS (trimS msg.text) = "change language") := by
    rintro (hc | hc)
    exacts [h2 hc, h3 hc]
  have hfg : ¬(isFreeB u = true ∧ 10 ≤ u.free_used ∧
      u.language_step = .ready) :=
    fun hc => hgate ⟨hc.1, hc.2.1⟩
  have hpw2 : ¬((lowerS (trimS msg.text) = "1" ∨ lowerS (trimS msg.text) = "2" ∨
      lowerS (trimS msg.text) = "3") ∧ isFreeB u = true ∧
      10 ≤ u.free_used) :=
    fun hc => hgate ⟨hc.2.1, hc.2.2⟩
  rcases hso with hso | ⟨hso, horig, htf⟩
  · simp [webhookTask, handleIncoming, handleExisting, h1, hpw, hfr, hfg,
      hpw2, hgate, stepDispatch, hstep, hs, ht, hg, translatePhase,
      tutorialNext, hso]
  · simp [webhookTask, handleIncoming, handleExisting, h1, hpw, hfr, hfg,
      hpw2, hgate, stepDispatch, hstep, hs, ht, hg, translatePhase,
      tutorialNext, hso, horig, htf]

/-- Claim C3 (amended): any pipeline error other than a synthesis failure
— attachment fetch, transcode, transcription, language detection, or
translation, on a text or a media message — aborts the current message's
processing and is caught by the top-level `.catch` of the detached task,
which only logs it: the process does not crash, but no generic error reply
is sent, the session row is unchanged, and the contact is left with no
reply at all. -/
theorem c3_amended (env : Env) (u : User) (msg : Msg) (sl tl gl : String)
    (hstep : u.language_step = .ready)
    (hs : u.source_lang = some sl) (ht : u.target_lang = some tl)
    (hg : u.voice_gender = some gl)
    (hgate : ¬(isFreeB u = true ∧ 10 ≤ u.free_used))
    (h1 : lowerS (trimS msg.text) ≠ "reset source")
    (h2 : lowerS (trimS msg.text) ≠ "reset")
    (h3 : lowerS (trimS msg.text) ≠ "change language")
    (herr :
      ((0 < msg.numMedia ∧ msg.mediaUrl.isSome = true) ∧
        (env.fetchFails = true ∨ env.transcodeFails = true ∨
         env.whisperFails = true ∨
         (take2 env.whisperLangRaw = "" ∧ env.detectFails = true) ∨
         (env.whisperText ≠ "" ∧ env.translateFails = true))) ∨
      (¬(0 < msg.numMedia ∧ msg.mediaUrl.isSome = true) ∧ msg.text ≠ "" ∧
        (env.detectFails = true ∨ env.translateFails = true))) :
    (webhookTask env (some u) msg).user = some u ∧
    (webhookTask env (some u) msg).sent = [] ∧
    (webhookTask env (some u) msg).errored = true := by
  apply webhook_abort env u msg sl tl gl hstep hs ht hg hgate h1 h2 h3
  rcases herr with ⟨hmedia, hf⟩ | ⟨hmedia, htext, hf⟩
  · have hA := (speechOrText_cases env msg).1 hmedia
    rcases hf with hf | hf | hf | hf | ⟨hwt, htf⟩
    · exact Or.inl (hA.1 (Or.inl hf))
    · exact Or.inl (hA.1 (Or.inr (Or.inl hf)))
    · exact Or.inl (hA.1 (Or.inr (Or.inr (Or.inl hf))))
    · exact Or.inl (hA.1 (Or.inr (Or.inr (Or.inr hf))))
    · cases he : (speechOrText env msg).errored with
      | true => exact Or.inl rfl
      | false =>
        refine Or.inr ⟨rfl, ?_, htf⟩
        rw [hA.2 he]
        exact hwt
  · have hB := (speechOrText_cases env msg).2 hmedia htext
    rcases hf with hf | hf
    · exact Or.inl (hB.1 hf)
    · cases he : (speechOrText env msg).errored with
      | true => exact Or.inl rfl
      | false =>
        refine Or.inr ⟨rfl, ?_, hf⟩
        rw [hB.2 he]
        exact htext

/-- Witness for `c3_amended`: a READY annual-plan session sends an audio
message whose ffmpeg transcode fails — zero replies, error only logged,
session row unchanged. -/
theorem c3_witness :
    (webhookTask transcodeFailEnv (some (readyUser "ANNUAL" 3))
        audioMsg).user = some (readyUser "ANNUAL" 3) ∧
    (webhookTask transcodeFailEnv (some (readyUser "ANNUAL" 3))
        audioMsg).sent = [] ∧
    (webhookTask transcodeFailEnv (some (readyUser "ANNUAL" 3))
        audioMsg).errored = true :=
  c3_amended transcodeFailEnv (readyUser "ANNUAL" 3) audioMsg
    "es" "en" "MALE" rfl rfl rfl rfl (by decide) (by decide) (by decide)
    (by decide) (Or.inl ⟨⟨by decide, rfl⟩, Or.inr (Or.inl rfl)⟩)

/-- Claim C4 as stated is false: the row created for a brand-new contact
has step `"target"` (the target-language stage), not the source-language
stage, and the first matched menu choice is stored as `target_lang`
(the source field stays null) before the step moves on to `"source"`. -/
theorem c4_counterexample :
    (handleIncoming okEnv none (textMsg "1")).user = some initialUser ∧
    initialUser.language_step = .target ∧ Step.target ≠ Step.source ∧
    (handleIncoming okEnv (some initialUser) (textMsg "1")).user =
      some { initialUser with target_lang := some "en",
                              language_step := .source } ∧
    ({ initialUser with target_lang := some "en",
                        language_step := .source } : User).source_lang =
      none :=
  ⟨rfl, rfl, by decide, by decide, rfl⟩

/-- Claim C4 (amended): a brand-new contact gets a session with step
`"target"` and the welcome menu (no translation), and the first matched
menu choice is stored as `target_lang` with the step advancing to the
source-language stage — target is chosen before source. -/
theorem c4_amended :
    (∀ env msg, handleIncoming env none msg =
      ⟨some initialUser, [Reply.msg WELCOME_MSG], false, []⟩) ∧
    (∀ env u msg choice,
      u.language_step = .target →
      lowerS (trimS msg.text) ≠ "reset source" →
      lowerS (trimS msg.text) ≠ "reset" →
      lowerS (trimS msg.text) ≠ "change language" →
      pickLang msg.text = some choice →
      (handleIncoming env (some u) msg).user =
        some { u with target_lang := some choice.code,
                      language_step := .source }) := by
  constructor
  · intro env msg
    rfl
  · intro env u msg choice hstep h1 h2 h3 hpick
    have hfr : ¬(lowerS (trimS msg.text) = "reset" ∨
        lowerS (trimS msg.text) = "change language") := by
      rintro (hc | hc)
      exacts [h2 hc, h3 hc]
    simp [handleIncoming, handleExisting, h1, hfr, hstep, stepDispatch,
      targetStep, hpick, apply_ite RunResult.user]

/-- Witness for `c4_amended`: a fresh contact saying "hello", then the
existing fresh session answering "english". -/
theorem c4_witness :
    handleIncoming okEnv none (textMsg "hello") =
      ⟨some initialUser, [Reply.msg WELCOME_MSG], false, []⟩ ∧
    (handleIncoming okEnv (some initialUser) (textMsg "english")).user =
      some { initialUser with target_lang := some "en",
                              language_step := .source } :=
  ⟨c4_amended.1 okEnv (textMsg "hello"),
   c4_amended.2 okEnv initialUser (textMsg "english") ⟨"English", "en"⟩
     rfl (by decide) (by decide) (by decide) (by decide)⟩

/-- Claim C7: when the whole synthesis fallback chain fails on an
audio-originated message, the handler has already delivered the transcript
line and the translated text, the run does not error (the failure is only
logged), and no audio reply is attached. -/
theorem c7_synthesis_nonfatal (env : Env) (u : User) (msg : Msg)
    (sl tl gl : String)
    (hstep : u.language_step = .ready)
    (hs : u.source_lang = some sl) (ht : u.target_lang = some tl)
    (hg : u.voice_gender = some gl)
    (hgate : ¬(isFreeB u = true ∧ 10 ≤ u.free_used))
    (h1 : lowerS (trimS msg.text) ≠ "reset source")
    (h2 : lowerS (trimS msg.text) ≠ "reset")
    (h3 : lowerS (trimS msg.text) ≠ "change language")
    (hnum : 0 < msg.numMedia) (hmedia : msg.mediaUrl.isSome = true)
    (hfetch : env.fetchFails = false) (htc : env.transcodeFails = false)
    (hwh : env.whisperFails = false) (horig : env.whisperText ≠ "")
    (hlang : take2 env.whisperLangRaw ≠ "")
    (htr : env.translateFails = false) (htts : env.ttsFails = true) :
    (handleIncoming env (some u) msg).sent =
      [Reply.msg ("🗣 " ++ env.whisperText),
       Reply.msg (env.translateRes env.whisperText
         (resolveDest (take2 env.whisperLangRaw) sl tl))] ∧
    (handleIncoming env (some u) msg).errored = false := by
  have hpw : ¬((lowerS (trimS msg.text) = "1" ∨ lowerS (trimS msg.text) = "2" ∨
      lowerS (trimS msg.text) = "3") ∧ isFreeB u = true ∧
      10 ≤ u.free_used ∧ u.language_step = .ready) :=
    fun hc => hgate ⟨hc.2.1, hc.2.2.1⟩
  have hfr : ¬(lowerS (trimS msg.text) = "reset" ∨
      lowerS (trimS msg.text) = "change language") := by
    rintro (hc | hc)
    exacts [h2 hc, h3 hc]
  have hfg : ¬(isFreeB u = true ∧ 10 ≤ u.free_used ∧
      u.language_step = .ready) :=
    fun hc => hgate ⟨hc.1, hc.2.1⟩
  have hpw2 : ¬((lowerS (trimS msg.text) = "1" ∨ lowerS (trimS msg.text) = "2" ∨
      lowerS (trimS msg.text) = "3") ∧ isFreeB u = true ∧
      10 ≤ u.free_used) :=
    fun hc => hgate ⟨hc.2.1, hc.2.2⟩
  have hnz : ¬(msg.numMedia = 0) := Nat.pos_iff_ne_zero.mp hnum
  simp [handleIncoming, handleExisting, h1, hpw, hfr, hfg, stepDispatch,
    hstep, hs, ht, hg, translatePhase, tutorialNext, speechOrText, hnum,
    hmedia, hfetch, htc, hwh, hlang, horig, htr, replyFlow, hnz, htts,
    resolveDest, hpw2, hgate]

/-- Witness for `c7_synthesis_nonfatal`: READY free session, audio
message, all synthesis attempts fail — transcript and translation are
still sent, no error. -/
theorem c7_witness :
    (handleIncoming ttsFailEnv (some (readyUser "FREE" 2)) audioMsg).sent =
      [Reply.msg ("🗣 " ++ ttsFailEnv.whisperText),
       Reply.msg (ttsFailEnv.translateRes ttsFailEnv.whisperText
         (resolveDest (take2 ttsFailEnv.whisperLangRaw) "es" "en"))] ∧
    (handleIncoming ttsFailEnv (some (readyUser "FREE" 2))
        audioMsg).errored = false :=
  c7_synthesis_nonfatal ttsFailEnv (readyUser "FREE" 2) audioMsg
    "es" "en" "MALE" rfl rfl rfl rfl (by decide) (by decide) (by decide)
    (by decide) (by decide) rfl rfl rfl rfl (by decide) (by decide) rfl rfl

/-- Claim C8 as stated is false: on an audio message whose ffmpeg
transcode (`toWav`) fails, the raw downloaded temp file is left on disk —
the cleanup only guards the transcription/detection block. -/
theorem c8_counterexample :
    (handleIncoming transcodeFailEnv (some (readyUser "FREE" 0))
        audioMsg).tmpLeft = ["raw"] ∧
    (["raw"] : List String) ≠ [] :=
  ⟨by decide, by decide⟩

/-- Claim C8 (amended): for audio messages the temp files are deleted on
every exit path of the transcription/detection block — success, whisper
failure, detection failure — but when normalization (`toWav`) itself
fails, the raw download is not deleted. -/
theorem c8_amended (env : Env) (msg : Msg)
    (hnum : 0 < msg.numMedia) (hmedia : msg.mediaUrl.isSome = true)
    (hfetch : env.fetchFails = false) :
    (env.transcodeFails = false → (speechOrText env msg).tmpLeft = []) ∧
    (env.transcodeFails = true → (speechOrText env msg).tmpLeft = ["raw"]) := by
  constructor <;> intro h <;>
    cases hw : env.whisperFails <;> cases hd : env.detectFails <;>
    by_cases hwl : take2 env.whisperLangRaw = "" <;>
    simp [speechOrText, hnum, hmedia, hfetch, h, hw, hd, hwl]

/-- Witness for `c8_amended` at a failing transcode: the raw file leaks. -/
theorem c8_witness :
    (transcodeFailEnv.transcodeFails = false →
      (speechOrText transcodeFailEnv audioMsg).tmpLeft = []) ∧
    (transcodeFailEnv.transcodeFails = true →
      (speechOrText transcodeFailEnv audioMsg).tmpLeft = ["raw"]) :=
  c8_amended transcodeFailEnv audioMsg (by decide) rfl rfl

/-- The translation phase never touches the stored languages: it either
leaves the row unchanged, bumps `free_used`, or additionally advances the
step to the successor given by `tutorialNext`. -/
theorem translatePhase_user (env : Env) (u : User) (msg : Msg) (u' : User)
    (h : (translatePhase env u msg).user = some u') :
    u'.source_lang = u.source_lang ∧ u'.target_lang = u.target_lang ∧
    (u'.language_step = u.language_step ∨
      ∃ p, tutorialNext u.language_step = some p ∧ u'.language_step = p.2) := by
  simp only [translatePhase] at h
  split at h
  · simp only [Option.some.injEq] at h
    subst h
    exact ⟨rfl, rfl, Or.inl rfl⟩
  · split at h
    · simp only [Option.some.injEq] at h
      subst h
      exact ⟨rfl, rfl, Or.inl rfl⟩
    · split at h
      · simp only [Option.some.injEq] at h
        subst h
        exact ⟨rfl, rfl, Or.inl rfl⟩
      · split at h
        case _ heq =>
          simp only [Option.some.injEq] at h
          subst h
          refine ⟨?_, ?_, Or.inl ?_⟩ <;>
            (split <;> rfl)
        case _ p heq =>
          simp only [Option.some.injEq] at h
          subst h
          refine ⟨?_, ?_, Or.inr ⟨p, heq, rfl⟩⟩ <;>
            (split <;> rfl)

/-- Case analysis on the users-row update performed by one run of
`handleIncoming` on an existing session. -/
theorem user_cases (env : Env) (u : User) (msg : Msg) (u' : User)
    (h : (handleIncoming env (some u) msg).user = some u') :
    u' = u ∨ u' = resetSourceUser u ∨ u' = fullResetUser u ∨
    (u.language_step = .target ∧ ∃ c, pickLang msg.text = some c ∧
      u' = { u with target_lang := some c.code,
                    language_step := .source }) ∨
    (u.language_step = .source ∧ ∃ c, pickLang msg.text = some c ∧
      u.target_lang ≠ some c.code ∧ u' = sourceStepUser u c.code) ∨
    (u.language_step = .gender ∧ ∃ g,
      u' = { u with voice_gender := some g,
                    language_step := Step.tutorial1 }) ∨
    (u'.source_lang = u.source_lang ∧ u'.target_lang = u.target_lang ∧
      u.source_lang.isSome = true ∧ u.target_lang.isSome = true ∧
      (u'.language_step = u.language_step ∨
        ∃ p, tutorialNext u.language_step = some p ∧
          u'.language_step = p.2)) := by
  simp only [handleIncoming, handleExisting] at h
  split at h
  · -- reset source
    split at h <;>
      (simp only [Option.some.injEq] at h; subst h;
       exact Or.inr (Or.inl rfl))
  · split at h
    · -- pay-wall buttons
      split at h <;>
        (simp only [Option.some.injEq] at h; subst h; exact Or.inl rfl)
    · split at h
      · -- full reset
        simp only [Option.some.injEq] at h
        subst h
        exact Or.inr (Or.inr (Or.inl rfl))
      · split at h
        · -- free-tier gate
          simp only [Option.some.injEq] at h
          subst h
          exact Or.inl rfl
        · -- step dispatch
          simp only [stepDispatch] at h
          split at h
          case _ hstep =>
            -- target step
            simp only [targetStep] at h
            split at h
            case _ c hpick =>
              split at h <;>
                (simp only [Option.some.injEq] at h; subst h;
                 exact Or.inr (Or.inr (Or.inr (Or.inl ⟨hstep, c, hpick, rfl⟩))))
            case _ hpick =>
              simp only [Option.some.injEq] at h
              subst h
              exact Or.inl rfl
          case _ hstep =>
            -- source step
            simp only [sourceStep] at h
            split at h
            case _ hpick =>
              simp only [Option.some.injEq] at h
              subst h
              exact Or.inl rfl
            case _ c hpick =>
              split at h
              case _ heqt =>
                simp only [Option.some.injEq] at h
                subst h
                exact Or.inl rfl
              case _ heqt =>
                split at h <;> (try split at h) <;>
                  (simp only [Option.some.injEq] at h; subst h;
                   exact Or.inr (Or.inr (Or.inr (Or.inr (Or.inl
                     ⟨hstep, c, hpick, heqt, rfl⟩)))))
          case _ hstep =>
            -- gender step
            simp only [genderStep] at h
            split at h
            case _ gv hgv =>
              split at h <;>
                (simp only [Option.some.injEq] at h; subst h;
                 exact Or.inr (Or.inr (Or.inr (Or.inr (Or.inr (Or.inl
                   ⟨hstep, gv, rfl⟩))))))
            case _ hgv =>
              split at h <;>
                (simp only [Option.some.injEq] at h; subst h; exact Or.inl rfl)
          case _ hstep h1 h2 h3 =>
            -- tutorial / ready steps
            split at h
            · simp only [Option.some.injEq] at h
              subst h
              exact Or.inl rfl
            case _ hcomp =>
              push_neg at hcomp
              obtain ⟨hcs, hct, _⟩ := hcomp
              have hs : u.source_lang.isSome = true := by
                cases hsl : u.source_lang with
                | none => exact absurd (by simp [hsl]) hcs
                | some v => rfl
              have ht : u.target_lang.isSome = true := by
                cases htl : u.target_lang with
                | none => exact absurd (by simp [htl]) hct
                | some v => rfl
              obtain ⟨e1, e2, e3⟩ := translatePhase_user env u msg u' h
              exact Or.inr (Or.inr (Or.inr (Or.inr (Or.inr (Or.inr
                ⟨e1, e2, hs, ht, e3⟩)))))

/-- The row created for a new contact satisfies the invariant. -/
theorem inv_init : Inv initialUser := by
  refine ⟨fun _ => rfl, ?_, ?_⟩
  · intro s t hs _
    exact absurd hs (by simp [initialUser])
  · intro habs
    exact absurd habs (by simp [initialUser])

/-- One inbound message preserves the state-machine invariant. -/
theorem inv_preserved (env : Env) (u : User) (msg : Msg) (u' : User)
    (hinv : Inv u) (h : (handleIncoming env (some u) msg).user = some u') :
    Inv u' := by
  obtain ⟨hA, hB, hC⟩ := hinv
  rcases user_cases env u msg u' h with
    rfl | rfl | rfl | ⟨hstep, c, hpick, rfl⟩ | ⟨hstep, c, hpick, hne, rfl⟩ |
    ⟨hstep, g, rfl⟩ | ⟨e1, e2, hs, ht, e3⟩
  · exact ⟨hA, hB, hC⟩
  · -- reset source: source cleared, step "source"
    refine ⟨?_, ?_, ?_⟩
    · intro habs
      exact nomatch habs
    · intro s t hs' _
      exact nomatch hs'
    · intro habs
      exact nomatch habs
  · -- full reset: both languages cleared, step "target"
    refine ⟨?_, ?_, ?_⟩
    · intro _
      rfl
    · intro s t hs' _
      exact nomatch hs'
    · intro habs
      exact nomatch habs
  · -- target step stored a target language while no source is stored
    have hsrc : u.source_lang = none := hA hstep
    refine ⟨?_, ?_, ?_⟩
    · intro habs
      exact nomatch habs
    · intro s t hs' _
      have hs2 : u.source_lang = some s := hs'
      rw [hsrc] at hs2
      exact nomatch hs2
    · intro habs
      exact nomatch habs
  · -- source step stored a source distinct from the target
    refine ⟨?_, ?_, ?_⟩
    · intro habs
      by_cases hb : (u.voice_gender.isSome && u.target_lang.isSome) = true <;>
        simp [sourceStepUser, hb] at habs
    · intro s t hs' ht'
      have hcs : c.code = s := by
        have : some c.code = some s := hs'
        exact Option.some.inj this
      have htl : u.target_lang = some t := ht'
      subst hcs
      intro hst
      exact hne (by rw [htl, hst])
    · intro hr
      by_cases hb : (u.voice_gender.isSome && u.target_lang.isSome) = true
      · refine ⟨rfl, ?_⟩
        have := ((Bool.and_eq_true _ _).mp hb).2
        exact this
      · simp [sourceStepUser, hb] at hr
  · -- gender step: languages untouched, step "tutorial1"
    refine ⟨?_, ?_, ?_⟩
    · intro habs
      exact nomatch habs
    · intro s t hs' ht'
      exact hB s t hs' ht'
    · intro habs
      exact nomatch habs
  · -- translation phase: languages unchanged, step moves within
    -- tutorial/ready territory
    refine ⟨?_, ?_, ?_⟩
    · intro habs
      rcases e3 with e3 | ⟨p, hp, e3⟩
      · rw [e1, hA (e3 ▸ habs)]
      · rw [e3] at habs
        cases hps : u.language_step <;> rw [hps] at hp <;>
          simp [tutorialNext] at hp <;> rw [← hp] at habs <;> exact nomatch habs
    · intro s t hs' ht'
      rw [e1] at hs'
      rw [e2] at ht'
      exact hB s t hs' ht'
    · intro _
      rw [e1, e2]
      exact ⟨hs, ht⟩

/-- Every reachable session satisfies the invariant. -/
theorem reachable_inv (u : User) (hr : Reachable u) : Inv u := by
  induction hr with
  | init => exact inv_init
  | step env msg v v' _ heq ih => exact inv_preserved env v msg v' ih heq

/-- Claim C5: for every session reachable by any sequence of inbound
messages, step READY implies both languages are stored and distinct. -/
theorem c5_ready_invariant (u : User) (hr : Reachable u)
    (hready : u.language_step = .ready) :
    ∃ s t, u.source_lang = some s ∧ u.target_lang = some t ∧ s ≠ t := by
  have hinv := reachable_inv u hr
  obtain ⟨hs, ht⟩ := hinv.2.2 hready
  obtain ⟨s, hs'⟩ := Option.isSome_iff_exists.mp hs
  obtain ⟨t, ht'⟩ := Option.isSome_iff_exists.mp ht
  exact ⟨s, t, hs', ht', hinv.2.1 s t hs' ht'⟩

/-- Witness for `c5_ready_invariant`: the session reached by the message
sequence "1", "2", "1", "hola", "hola", "hola" from a fresh contact is
READY with the distinct pair es/en. -/
theorem c5_witness :
    ∃ s t, (readyUser "FREE" 0).source_lang = some s ∧
      (readyUser "FREE" 0).target_lang = some t ∧ s ≠ t := by
  have r0 : Reachable initialUser := .init
  have r1 : Reachable ⟨.source, none, some "en", none, "FREE", 0⟩ :=
    .step okEnv (textMsg "1") _ _ r0 (by decide)
  have r2 : Reachable ⟨.gender, some "es", some "en", none, "FREE", 0⟩ :=
    .step okEnv (textMsg "2") _ _ r1 (by decide)
  have r3 : Reachable
      ⟨.tutorial1, some "es", some "en", some "MALE", "FREE", 0⟩ :=
    .step okEnv (textMsg "1") _ _ r2 (by decide)
  have r4 : Reachable
      ⟨.tutorial2, some "es", some "en", some "MALE", "FREE", 0⟩ :=
    .step okEnv (textMsg "hola") _ _ r3 (by decide)
  have r5 : Reachable
      ⟨.tutorial3, some "es", some "en", some "MALE", "FREE", 0⟩ :=
    .step okEnv (textMsg "hola") _ _ r4 (by decide)
  have r6 : Reachable (readyUser "FREE" 0) :=
    .step okEnv (textMsg "hola") _ _ r5 (by decide)
  exact c5_ready_invariant (readyUser "FREE" 0) r6 rfl

/-- Claim C10: the very first message from a new contact is entirely
discarded — whatever its text or attachments, the handler just creates the
default row (step `"target"`, FREE plan, zero usage) and sends the welcome
menu; no menu matching, no translation, no error. -/
theorem c10_first_contact (env : Env) (msg : Msg) :
    handleIncoming env none msg =
      ⟨some initialUser, [Reply.msg WELCOME_MSG], false, []⟩ :=
  rfl

end TuCan
